import Mathlib

/-!
Verification development for the TES-forms repository.

Shallow embedding of:
- `src/prismaClient.js` : `connectWithRetry`, `withRetry` (retry / client-replacement logic);
- `src/controllers/formsController.js` : `validateFormData`, `update`, `exportPDF`,
  `getDisplayNameForFile`, signature validation;
- `src/services/pdfService.js` : `imageToBase64`, `generatePDF`.

JavaScript machinery is embedded explicitly: form values are `JsValue` (string or
number, with `none : Option Int` standing for `NaN`), truthiness is `jsTruthy`,
`parseInt` is `jsParseInt` (decimal form: optional sign, leading digits, trailing
junk ignored), and the asynchronous retry loops become fuel-indexed recursions that
record a trace of the observable actions (invocations, delays, client replacements).
-/

/-- Boolean test that `pat` is a prefix of `s` (over character lists). -/
def leadsWith : List Char → List Char → Bool
  | [], _ => true
  | _ :: _, [] => false
  | a :: as, b :: bs => a == b && leadsWith as bs

/-- Boolean test that `pat` occurs as a contiguous infix of `s`. -/
def occursIn : List Char → List Char → Bool
  | pat, [] => pat.isEmpty
  | pat, c :: cs => leadsWith pat (c :: cs) || occursIn pat cs

/-- Model of JavaScript `s.includes(pat)` for strings. -/
def strIncludes (s pat : String) : Bool :=
  occursIn pat.toList s.toList

/-- A JavaScript error as observed by `withRetry` in `src/prismaClient.js`:
its `message` string and its optional Prisma `code`. -/
structure JsError where
  message : String
  code : Option String
deriving DecidableEq

/-- Embedding of `src/prismaClient.js` lines 161-166: the `isRetryable` classification inside
`withRetry`. -/
def isRetryable (e : JsError) : Bool :=
  strIncludes e.message "Can\x27t reach database" ||
  strIncludes e.message "Timed out fetching" ||
  strIncludes e.message "connection pool" ||
  e.code == some "P2024" ||
  e.code == some "P1001"

/-- Embedding of `src/prismaClient.js` line 171: the hard-unreachability test that selects the
client-replacement branch inside `withRetry`. -/
def isHardNetwork (e : JsError) : Bool :=
  e.code == some "P1001" || strIncludes e.message "Can\x27t reach database"

/-- One observable action of a `withRetry` loop iteration:
- `success i` : the `i`-th invocation of `queryFn` returned;
- `retryPool i d` : the `i`-th invocation failed with a retryable, non-hard error;
  the loop sleeps `d` ms (`2000 * attempt`) and retries on the existing client;
- `retryHard i` : the `i`-th invocation failed with a hard-network error; the loop
  runs `recreatePrismaClient()` (one client replacement) and a fixed 2000 ms pause;
- `throwNow i` : the `i`-th invocation failed and the error is rethrown
  (non-retryable error, or the final attempt). -/
inductive RetryStep
  | success (attempt : Nat)
  | retryPool (attempt delayMs : Nat)
  | retryHard (attempt : Nat)
  | throwNow (attempt : Nat)
deriving DecidableEq

/-- The `for (let attempt = 1; attempt <= maxRetries; attempt++)` loop of
`withRetry` (`src/prismaClient.js` lines 148-188). `fuel` counts the loop
iterations still permitted by the loop bound, `attempt` is the loop counter and
`last` is the `lastError` variable. The behaviour of `queryFn` is supplied as
`op : Nat → Except JsError α`, giving the outcome of its `attempt`-th invocation.
Returns the trace of observable steps and either the returned value or the thrown
error (`.error none` is the degenerate `throw lastError` with no error recorded). -/
def withRetryGo (op : Nat → Except JsError α) (maxRetries : Nat) :
    Nat → Nat → Option JsError → List RetryStep × Except (Option JsError) α
  | 0, _, last => ([], .error last)
  | fuel + 1, attempt, _ =>
    match op attempt with
    | .ok v => ([.success attempt], .ok v)
    | .error e =>
      if isRetryable e && decide (attempt < maxRetries) then
        let step := if isHardNetwork e then RetryStep.retryHard attempt
                    else RetryStep.retryPool attempt (2000 * attempt)
        let rest := withRetryGo op maxRetries fuel (attempt + 1) (some e)
        (step :: rest.1, rest.2)
      else
        ([.throwNow attempt], .error (some e))

/-- Embedding of `withRetry(queryFn, maxRetries)` from `src/prismaClient.js`, as a trace-producing
function of the query behaviour `op`. -/
def withRetry (op : Nat → Except JsError α) (maxRetries : Nat) :
    List RetryStep × Except (Option JsError) α :=
  withRetryGo op maxRetries maxRetries 1 none

/-- Number of `recreatePrismaClient()` calls recorded in a trace. -/
def replacements : List RetryStep → Nat
  | [] => 0
  | RetryStep.retryHard _ :: t => replacements t + 1
  | RetryStep.success _ :: t => replacements t
  | RetryStep.retryPool _ _ :: t => replacements t
  | RetryStep.throwNow _ :: t => replacements t

/-- Number of invocations of the wrapped operation recorded in a trace
(every loop iteration invokes `queryFn` exactly once). -/
def invocations (t : List RetryStep) : Nat := t.length

/-- Embedding of `src/prismaClient.js` line 130: the startup backoff delay
`Math.min(3000 * Math.pow(2, attempt - 1), 30000)`. -/
def connectDelay (attempt : Nat) : Nat :=
  min (3000 * 2 ^ (attempt - 1)) 30000

/-- One observable action of a `connectWithRetry` loop iteration. `failLast` is a
failure on the final attempt (no sleep afterwards). -/
inductive ConnectStep
  | success (attempt : Nat)
  | failWait (attempt delayMs : Nat)
  | failLast (attempt : Nat)
deriving DecidableEq

/-- The loop of `connectWithRetry` (`src/prismaClient.js` lines 122-142), with the
outcome of the `attempt`-th `$connect()` call supplied as `conn`. -/
def connectGo (conn : Nat → Bool) (maxRetries : Nat) :
    Nat → Nat → List ConnectStep × Bool
  | 0, _ => ([], false)
  | fuel + 1, attempt =>
    if conn attempt then ([.success attempt], true)
    else
      let step := if attempt < maxRetries then ConnectStep.failWait attempt (connectDelay attempt)
                  else ConnectStep.failLast attempt
      let rest := connectGo conn maxRetries fuel (attempt + 1)
      (step :: rest.1, rest.2)

/-- Embedding of `connectWithRetry(maxRetries)` from `src/prismaClient.js`: returns `true` on the
first successful `$connect()`, `false` (without throwing) after all attempts fail. -/
def connectWithRetry (conn : Nat → Bool) (maxRetries : Nat) : List ConnectStep × Bool :=
  connectGo conn maxRetries maxRetries 1

/-- An error whose Prisma code is the pool-timeout code `P2024` while its message
also matches the unreachable-database marker checked first by `withRetry`. -/
def errPoolHard : JsError :=
  { message := "Can\x27t reach database server at pooler", code := some "P2024" }

/-- A non-retryable error (constraint violation). -/
def errConstraint : JsError :=
  { message := "Unique constraint failed on the fields", code := some "P2002" }

/-- The canonical pool-exhaustion error. -/
def errPoolTimeout : JsError :=
  { message := "Timed out fetching a new connection from the connection pool",
    code := some "P2024" }

/-- JavaScript whitespace as far as `String.prototype.trim` is concerned (the
ASCII part, which is all that can occur here). -/
def isJsSpace (c : Char) : Bool :=
  c == ' ' || c == '\t' || c == '\n' || c == '\r'

/-- Strip whitespace from both ends of a character list. -/
def trimChars (l : List Char) : List Char :=
  ((l.dropWhile isJsSpace).reverse.dropWhile isJsSpace).reverse

/-- Model of JavaScript `s.trim()`. -/
def jsTrim (s : String) : String :=
  String.mk (trimChars s.toList)

/-- A JavaScript form value as handled by `validateFormData`: a string, or a number
(`num none` standing for `NaN`). Raw HTTP submissions carry only strings; stored
record payloads additionally carry the numbers produced by validation. -/
inductive JsValue
  | str (s : String)
  | num (n : Option Int)
deriving DecidableEq

/-- A string-keyed JavaScript object of form fields; a missing key is `undefined`. -/
abbrev FormData := List (String × JsValue)

/-- JavaScript truthiness of a form value: the empty string, `0` and `NaN` are
falsy, everything else truthy. -/
def jsTruthy : JsValue → Bool
  | .str s => !(s == "")
  | .num none => false
  | .num (some i) => !(i == 0)

/-- JavaScript `ToString` on a form value (used by `parseInt` on numbers). The
string-method call sites in `validateFormData` only ever receive strings, where
this is the identity. -/
def jsToString : JsValue → String
  | .str s => s
  | .num none => "NaN"
  | .num (some i) => toString i

/-- ECMAScript `parseInt` for decimal inputs: leading whitespace skipped, optional
sign, longest leading digit run; no digits gives `NaN` (`none`); trailing
non-digits are ignored. -/
def jsParseInt (s : String) : Option Int :=
  match (jsTrim s).toList with
  | '-' :: rest =>
    let ds := rest.takeWhile Char.isDigit
    if ds.isEmpty then none
    else some (-(ds.foldl (fun a c => a * 10 + (c.toNat - 48)) 0 : Nat))
  | '+' :: rest =>
    let ds := rest.takeWhile Char.isDigit
    if ds.isEmpty then none
    else some ((ds.foldl (fun a c => a * 10 + (c.toNat - 48)) 0 : Nat))
  | cs =>
    let ds := cs.takeWhile Char.isDigit
    if ds.isEmpty then none
    else some ((ds.foldl (fun a c => a * 10 + (c.toNat - 48)) 0 : Nat))

/-- Embedding of `formData.k?.trim() || \x27\x27` : `undefined` becomes the empty string,
otherwise the trimmed value (trimming already sends blank strings to the empty
string, so the trailing `|| \x27\x27` adds nothing on strings). -/
def optTrimOr (v : Option JsValue) : String :=
  match v with
  | none => ""
  | some w => jsTrim (jsToString w)

/-- Embedding of `formData.k || \x27\x27` : a falsy or missing value becomes the empty string,
otherwise the value is kept unchanged. -/
def orEmpty (v : Option JsValue) : JsValue :=
  match v with
  | none => .str ""
  | some w => if jsTruthy w then w else .str ""

/-- The required-field guard `!formData.k || formData.k.trim() === \x27\x27`. -/
def requiredMissing (v : Option JsValue) : Bool :=
  match v with
  | none => true
  | some w => !jsTruthy w || jsTrim (jsToString w) == ""

/-- The trimmed value stored for a present required field (`formData.k.trim()`). -/
def requiredTrim (v : Option JsValue) : String :=
  jsTrim (jsToString (v.getD (.str "")))

/-- Embedding of `formData.k ? parseInt(formData.k) : 0` — the numeric coercion used for
`totalLeave`, `allowedLeave`, `extraLeave` and `totalDays`. -/
def coerceInt (v : Option JsValue) : Option Int :=
  match v with
  | none => some 0
  | some w => if jsTruthy w then jsParseInt (jsToString w) else some 0

/-- JS number falsiness: `!n` holds for `0` and `NaN`. -/
def numFalsy : Option Int → Bool
  | none => true
  | some i => i == 0

/-- JS `n <= 0` : false on `NaN`. -/
def numLe0 : Option Int → Bool
  | none => false
  | some i => decide (i ≤ 0)

/-- JS `n < 0` : false on `NaN`. -/
def numLt0 : Option Int → Bool
  | none => false
  | some i => decide (i < 0)

/-- Embedding of `validateSignature` from `src/controllers/formsController.js` lines 25-40:
`none` means no error. -/
def validateSignature (signature : Option JsValue) : Option String :=
  match signature with
  | none => none
  | some v =>
    if !jsTruthy v then none
    else
      let s := jsToString v
      if !leadsWith "data:image/".toList s.toList then some "Invalid signature format"
      else if decide (s.length > 500 * 1024) then
        some "Signature file is too large (max 500KB)"
      else none

/-- Embedding of `processSignature` from `src/controllers/formsController.js` lines 43-50:
returns the sanitized stored value and the field-error entries it adds. -/
def processSignature (signature : Option JsValue) (fieldName : String) :
    String × List (String × String) :=
  match validateSignature signature with
  | some err => ("", [(fieldName, err)])
  | none =>
    (match signature with
     | none => ""
     | some v => if jsTruthy v then jsToString v else "", [])

/-- The three trailing signature entries of every validated payload
(`employeeSignature` .. `hrSignatureDate`), shared verbatim by the three type
blocks of `validateFormData`. -/
def signatureEntries (fd : FormData) : List (String × String) × FormData :=
  let sigE := processSignature (fd.lookup "employeeSignature") "employeeSignature"
  let sigM := processSignature (fd.lookup "managerSignature") "managerSignature"
  let sigH := processSignature (fd.lookup "hrSignature") "hrSignature"
  (sigE.2 ++ sigM.2 ++ sigH.2,
   [("employeeSignature", JsValue.str sigE.1),
    ("employeeSignatureDate", orEmpty (fd.lookup "employeeSignatureDate")),
    ("managerSignature", JsValue.str sigM.1),
    ("managerSignatureDate", orEmpty (fd.lookup "managerSignatureDate")),
    ("hrSignature", JsValue.str sigH.1),
    ("hrSignatureDate", orEmpty (fd.lookup "hrSignatureDate"))])

/-- The `type === \x27rejoining\x27` block of `validateFormData`
(`src/controllers/formsController.js` lines 379-424). -/
def validateRejoining (fd : FormData) (strict : Bool) :
    List (String × String) × FormData :=
  let nameBad := requiredMissing (fd.lookup "name")
  let wrokBad := requiredMissing (fd.lookup "wrokId")
  let mobileNo := optTrimOr (fd.lookup "mobileNo")
  let designation := optTrimOr (fd.lookup "designation")
  let leaveType := optTrimOr (fd.lookup "leaveType")
  let dateOfLeaving := orEmpty (fd.lookup "dateOfLeaving")
  let dateOfJoining := orEmpty (fd.lookup "dateOfJoining")
  let totalLeave := coerceInt (fd.lookup "totalLeave")
  let allowedLeave := coerceInt (fd.lookup "allowedLeave")
  let extraLeave := coerceInt (fd.lookup "extraLeave")
  let passportNo := optTrimOr (fd.lookup "passportNo")
  let passportHandedOver := optTrimOr (fd.lookup "passportHandedOver")
  let sigs := signatureEntries fd
  let strictErrs : List (String × String) :=
    if strict then
      (if mobileNo == "" then [("mobileNo", "Mobile Number is required")] else []) ++
      (if designation == "" then [("designation", "Designation is required")] else []) ++
      (if leaveType == "" then [("leaveType", "Leave Type is required")] else []) ++
      (if !jsTruthy dateOfLeaving then [("dateOfLeaving", "Date of Leaving is required")] else []) ++
      (if !jsTruthy dateOfJoining then [("dateOfJoining", "Date of Joining is required")] else []) ++
      (if numFalsy totalLeave || numLe0 totalLeave then
        [("totalLeave", "Total Leave is required")] else []) ++
      (if numLt0 allowedLeave then [("allowedLeave", "Allowed Leave must be 0 or more")] else []) ++
      (if numLt0 extraLeave then [("extraLeave", "Extra Leave must be 0 or more")] else []) ++
      (if passportNo == "" then [("passportNo", "Passport No is required")] else []) ++
      (if passportHandedOver == "" then
        [("passportHandedOver", "Passport Handed Over is required")] else [])
    else []
  ((if nameBad then [("name", "Name is required")] else []) ++
   (if wrokBad then [("wrokId", "Work ID is required")] else []) ++
   strictErrs ++ sigs.1,
   (if nameBad then [] else [("name", JsValue.str (requiredTrim (fd.lookup "name")))]) ++
   (if wrokBad then [] else [("wrokId", JsValue.str (requiredTrim (fd.lookup "wrokId")))]) ++
   [("mobileNo", JsValue.str mobileNo),
    ("designation", JsValue.str designation),
    ("leaveType", JsValue.str leaveType),
    ("dateOfLeaving", dateOfLeaving),
    ("dateOfJoining", dateOfJoining),
    ("totalLeave", JsValue.num totalLeave),
    ("allowedLeave", JsValue.num allowedLeave),
    ("extraLeave", JsValue.num extraLeave),
    ("passportNo", JsValue.str passportNo),
    ("passportHandedOver", JsValue.str passportHandedOver)] ++
   sigs.2)

/-- The `type === \x27leave-expats\x27` block of `validateFormData`
(`src/controllers/formsController.js` lines 425-473). -/
def validateLeaveExpats (fd : FormData) (strict : Bool) :
    List (String × String) × FormData :=
  let nameBad := requiredMissing (fd.lookup "employeeName")
  let idBad := requiredMissing (fd.lookup "employeeId")
  let formDate := orEmpty (fd.lookup "formDate")
  let position := optTrimOr (fd.lookup "position")
  let site := optTrimOr (fd.lookup "site")
  let mobileNo := optTrimOr (fd.lookup "mobileNo")
  let leaveType := orEmpty (fd.lookup "leaveType")
  let commenceLeave := orEmpty (fd.lookup "commenceLeave")
  let totalDays := coerceInt (fd.lookup "totalDays")
  let lastDayLeave := orEmpty (fd.lookup "lastDayLeave")
  let airportName := optTrimOr (fd.lookup "airportName")
  let paymentOption := orEmpty (fd.lookup "paymentOption")
  let ticketOption := orEmpty (fd.lookup "ticketOption")
  let sigs := signatureEntries fd
  let strictErrs : List (String × String) :=
    if strict then
      (if !jsTruthy formDate then [("formDate", "Form Date is required")] else []) ++
      (if position == "" then [("position", "Position is required")] else []) ++
      (if site == "" then [("site", "Site is required")] else []) ++
      (if mobileNo == "" then [("mobileNo", "Mobile Number is required")] else []) ++
      (if !jsTruthy leaveType then [("leaveType", "Leave Type is required")] else []) ++
      (if !jsTruthy commenceLeave then [("commenceLeave", "Commence Leave is required")] else []) ++
      (if numFalsy totalDays || numLe0 totalDays then
        [("totalDays", "Total Days is required")] else []) ++
      (if !jsTruthy lastDayLeave then [("lastDayLeave", "Last Day of Leave is required")] else []) ++
      (if airportName == "" then [("airportName", "Airport Name is required")] else []) ++
      (if !jsTruthy paymentOption then [("paymentOption", "Payment Option is required")] else []) ++
      (if !jsTruthy ticketOption then [("ticketOption", "Ticket Option is required")] else [])
    else []
  ((if nameBad then [("employeeName", "Employee name is required")] else []) ++
   (if idBad then [("employeeId", "Employee ID is required")] else []) ++
   strictErrs ++ sigs.1,
   (if nameBad then [] else
     [("employeeName", JsValue.str (requiredTrim (fd.lookup "employeeName")))]) ++
   (if idBad then [] else
     [("employeeId", JsValue.str (requiredTrim (fd.lookup "employeeId")))]) ++
   [("formDate", formDate),
    ("position", JsValue.str position),
    ("site", JsValue.str site),
    ("mobileNo", JsValue.str mobileNo),
    ("leaveType", leaveType),
    ("commenceLeave", commenceLeave),
    ("totalDays", JsValue.num totalDays),
    ("lastDayLeave", lastDayLeave),
    ("airportName", JsValue.str airportName),
    ("paymentOption", paymentOption),
    ("ticketOption", ticketOption)] ++
   sigs.2)

/-- The `type === \x27leave-omani\x27` block of `validateFormData`
(`src/controllers/formsController.js` lines 474-515). -/
def validateLeaveOmani (fd : FormData) (strict : Bool) :
    List (String × String) × FormData :=
  let nameBad := requiredMissing (fd.lookup "employeeName")
  let idBad := requiredMissing (fd.lookup "employeeId")
  let formDate := orEmpty (fd.lookup "formDate")
  let position := optTrimOr (fd.lookup "position")
  let site := optTrimOr (fd.lookup "site")
  let mobileNo := optTrimOr (fd.lookup "mobileNo")
  let leaveType := orEmpty (fd.lookup "leaveType")
  let commenceLeave := orEmpty (fd.lookup "commenceLeave")
  let totalDays := coerceInt (fd.lookup "totalDays")
  let lastDayLeave := orEmpty (fd.lookup "lastDayLeave")
  let sigs := signatureEntries fd
  let strictErrs : List (String × String) :=
    if strict then
      (if !jsTruthy formDate then [("formDate", "Form Date is required")] else []) ++
      (if position == "" then [("position", "Position is required")] else []) ++
      (if site == "" then [("site", "Site is required")] else []) ++
      (if mobileNo == "" then [("mobileNo", "Mobile Number is required")] else []) ++
      (if !jsTruthy leaveType then [("leaveType", "Leave Type is required")] else []) ++
      (if !jsTruthy commenceLeave then [("commenceLeave", "Commence Leave is required")] else []) ++
      (if numFalsy totalDays || numLe0 totalDays then
        [("totalDays", "Total Days is required")] else []) ++
      (if !jsTruthy lastDayLeave then [("lastDayLeave", "Last Day of Leave is required")] else [])
    else []
  ((if nameBad then [("employeeName", "Employee name is required")] else []) ++
   (if idBad then [("employeeId", "Employee ID is required")] else []) ++
   strictErrs ++ sigs.1,
   (if nameBad then [] else
     [("employeeName", JsValue.str (requiredTrim (fd.lookup "employeeName")))]) ++
   (if idBad then [] else
     [("employeeId", JsValue.str (requiredTrim (fd.lookup "employeeId")))]) ++
   [("formDate", formDate),
    ("position", JsValue.str position),
    ("site", JsValue.str site),
    ("mobileNo", JsValue.str mobileNo),
    ("leaveType", leaveType),
    ("commenceLeave", commenceLeave),
    ("totalDays", JsValue.num totalDays),
    ("lastDayLeave", lastDayLeave)] ++
   sigs.2)

/-- Embedding of `validateFormData(type, formData, options)` from
`src/controllers/formsController.js` lines 374-518: returns the pair
`(errors, validatedData)`, both as insertion-ordered key/value lists. A type
outside the three handled ones falls through every branch and returns the
initial empty objects. -/
def validateFormData (type : String) (fd : FormData) (strict : Bool) :
    List (String × String) × FormData :=
  if type == "rejoining" then validateRejoining fd strict
  else if type == "leave-expats" then validateLeaveExpats fd strict
  else if type == "leave-omani" then validateLeaveOmani fd strict
  else ([], [])

/-- The concrete minimal rejoining submission of the spec scenario. -/
def fdMinimal : FormData := [("name", JsValue.str "A"), ("wrokId", JsValue.str "1")]

/-- The canonical payload stored for `fdMinimal` after lenient validation. -/
def vdMinimal : FormData :=
  [("name", JsValue.str "A"), ("wrokId", JsValue.str "1"),
   ("mobileNo", JsValue.str ""), ("designation", JsValue.str ""),
   ("leaveType", JsValue.str ""), ("dateOfLeaving", JsValue.str ""),
   ("dateOfJoining", JsValue.str ""), ("totalLeave", JsValue.num (some 0)),
   ("allowedLeave", JsValue.num (some 0)), ("extraLeave", JsValue.num (some 0)),
   ("passportNo", JsValue.str ""), ("passportHandedOver", JsValue.str ""),
   ("employeeSignature", JsValue.str ""), ("employeeSignatureDate", JsValue.str ""),
   ("managerSignature", JsValue.str ""), ("managerSignatureDate", JsValue.str ""),
   ("hrSignature", JsValue.str ""), ("hrSignatureDate", JsValue.str "")]

/-- Embedding of `VALID_TYPES` from `src/controllers/formsController.js` line 5. -/
def VALID_TYPES : List String := ["rejoining", "leave-expats", "leave-omani"]

/-- Embedding of `normalizeType` from `src/controllers/formsController.js` lines 8-12: route
types use hyphens, stored types use underscores. -/
def normalizeType (type : String) : String :=
  if type == "leave-expats" then "leave_expats"
  else if type == "leave-omani" then "leave_omani"
  else type

/-- An Application row of the record store (`prisma.application`). -/
structure AppRecord where
  id : String
  type : String
  data : FormData
  createdAt : Nat
  updatedAt : Nat
deriving DecidableEq

/-- The record store as the list of its rows. -/
abbrev Store := List AppRecord

/-- Embedding of the `findUnique` store read used by the controllers. -/
def findUnique (store : Store) (id : String) : Option AppRecord :=
  store.find? fun r => r.id == id

/-- Embedding of the `application.update` store write. The controller passes
only the `data` payload. Modelled from the spec: the Prisma schema (not under
`src/`) declares `updatedAt` as an auto-updated timestamp and `id`, `type`,
`createdAt` as untouched columns, so the write replaces `data`, refreshes
`updatedAt` to the current time and leaves every other column and row alone. -/
def prismaUpdate (store : Store) (id : String) (newData : FormData) (now : Nat) : Store :=
  store.map fun r => if r.id == id then { r with data := newData, updatedAt := now } else r

/-- Outcome of the `update` controller action. -/
inductive UpdateOutcome
  | notFound
  | renderEdit (errors : List (String × String))
  | redirectPdf (id : String)
  | redirectList
deriving DecidableEq

/-- Embedding of `exports.update` from `src/controllers/formsController.js` lines 244-302: the
resulting store and response. `body` is `req.body` without its `action` key and
`now` the write timestamp. -/
def update (store : Store) (type id : String) (body : FormData) (action : Option String)
    (now : Nat) : Store × UpdateOutcome :=
  if !(VALID_TYPES.contains type) then (store, .notFound)
  else
    let dbType := normalizeType type
    match findUnique store id with
    | none => (store, .notFound)
    | some existing =>
      if !(existing.type == dbType) then (store, .notFound)
      else
        let res := validateFormData type body (action == some "export")
        if !res.1.isEmpty then (store, .renderEdit res.1)
        else
          let store2 := prismaUpdate store id res.2 now
          if action == some "export" then (store2, .redirectPdf id)
          else (store2, .redirectList)

/-- Characters the filename sanitizer keeps: the regex class `[a-zA-Z0-9 _.-]`
of `src/controllers/formsController.js` line 346. -/
def filenameChar (c : Char) : Bool :=
  c.isAlphanum || c == ' ' || c == '_' || c == '.' || c == '-'

/-- Embedding of `name.replace(/[^a-zA-Z0-9 _.-]/g, \x27\x27).trim()` — remove every character
outside the safe class, then trim. -/
def sanitizeName (s : String) : String :=
  jsTrim (String.mk (s.toList.filter filenameChar))

/-- Embedding of `if (!name || name.trim() === \x27\x27) name = id` — the fallback to the route
id when the display name is blank. -/
def fallbackName (name0 id : String) : String :=
  if name0 == "" || jsTrim name0 == "" then id else name0

/-- Embedding of `if (name.length > 80) name = name.slice(0, 80)` — truncation to 80
characters. -/
def truncate80 (s : String) : String :=
  if decide (s.length > 80) then String.mk (s.toList.take 80) else s

/-- Embedding of `getDisplayNameForFile(formType, data)` from `src/controllers/formsController.js`
lines 333-350 (`id` is the route id captured by the closure). -/
def getDisplayNameForFile (formType : String) (data : FormData) (id : String) : String :=
  let name0 := if formType == "rejoining" then jsToString (orEmpty (data.lookup "name"))
               else jsToString (orEmpty (data.lookup "employeeName"))
  let name3 := truncate80 (sanitizeName (fallbackName name0 id))
  if name3 == "" then id else name3

/-- Outcome of the `exportPDF` controller action up to the point where the PDF
bytes are streamed: the renderer itself is modelled separately (`generatePDF`). -/
inductive ExportOutcome
  | notFound
  | redirectExportError (type : String)
  | pdfAttachment (filename : String)
deriving DecidableEq

/-- Embedding of `exports.exportPDF` from `src/controllers/formsController.js` lines 305-371:
route checks, strict re-validation of the stored payload (aborting to the list
view with `exportError=1` when it fails), and the attachment filename
`"<type> - <base>.pdf"` built from `getDisplayNameForFile`. -/
def exportPDF (store : Store) (type id : String) : ExportOutcome :=
  if !(VALID_TYPES.contains type) then .notFound
  else
    match findUnique store id with
    | none => .notFound
    | some app =>
      if !(app.type == normalizeType type) then .notFound
      else
        let parsedData := app.data
        let errors := (validateFormData type parsedData true).1
        if !errors.isEmpty then .redirectExportError type
        else
          let base := getDisplayNameForFile type parsedData id
          .pdfAttachment (type ++ " - " ++ base ++ ".pdf")

/-- The external effects `generatePDF` depends on, supplied as data: the logo file
read (`fs.readFile`, with the raw bytes already base64-encoded as a string), the
logo extension, the EJS template render as a function of the template file and the
inlined `logoBase64`, the located Chrome executable, the browser launch, and the
page-to-PDF capture as a function of the rendered HTML. -/
structure RenderEnv where
  readLogo : Except String String
  logoExt : String
  renderTemplate : String → String → Except String String
  chromePath : Option String
  launch : Except String Unit
  pdfOf : String → Except String (List Nat)

/-- Embedding of `imageToBase64` from `src/services/pdfService.js` lines 81-91: on a successful
read, a self-describing data URI; a read failure is caught, logged, and turned
into the empty string. -/
def imageToBase64 (readResult : Except String String) (ext : String) : String :=
  match readResult with
  | Except.ok contents =>
    let mimeType := if ext == ".png" then "image/png"
                    else if ext == ".jpg" || ext == ".jpeg" then "image/jpeg"
                    else "image/png"
    "data:" ++ mimeType ++ ";base64," ++ contents
  | Except.error _ => ""

/-- The template table of `generatePDF` (`src/services/pdfService.js` lines 102-106). -/
def templateMap (type : String) : Option String :=
  if type == "rejoining" then some "rejoining.ejs"
  else if type == "leave-expats" then some "leave_expats.ejs"
  else if type == "leave-omani" then some "leave_omani.ejs"
  else none

/-- Embedding of `generatePDF` from `src/services/pdfService.js` lines 99-182: template lookup,
logo inlining, EJS render, Chrome lookup, launch, capture; every thrown error is
wrapped by the outer catch as `"Failed to generate PDF: " + message`. -/
def generatePDF (env : RenderEnv) (type : String) : Except String (List Nat) :=
  match templateMap type with
  | none => Except.error ("Failed to generate PDF: Invalid form type: " ++ type)
  | some templateFile =>
    let logoBase64 := imageToBase64 env.readLogo env.logoExt
    match env.renderTemplate templateFile logoBase64 with
    | Except.error m => Except.error ("Failed to generate PDF: " ++ m)
    | Except.ok html =>
      match env.chromePath with
      | none => Except.error ("Failed to generate PDF: Chrome executable not found. Puppeteer installation may have failed during build.")
      | some _ =>
        match env.launch with
        | Except.error m => Except.error ("Failed to generate PDF: " ++ m)
        | Except.ok _ =>
          match env.pdfOf html with
          | Except.error m => Except.error ("Failed to generate PDF: " ++ m)
          | Except.ok buf => Except.ok buf

/-- The stored record created from the minimal rejoining submission. -/
def recMinimal : AppRecord :=
  { id := "cidmin", type := "rejoining", data := vdMinimal, createdAt := 0, updatedAt := 0 }

/-- A rejoining submission whose totalLeave is not numeric. -/
def fdNaN : FormData :=
  [("name", JsValue.str "A"), ("wrokId", JsValue.str "1"), ("totalLeave", JsValue.str "abc")]

/-- A render environment in which only the logo read fails. -/
def envLogoGone : RenderEnv :=
  { readLogo := Except.error "ENOENT: no such file or directory",
    logoExt := ".png",
    renderTemplate := fun _ logo => Except.ok ("<html>" ++ logo ++ "</html>"),
    chromePath := some "/usr/bin/chromium",
    launch := Except.ok (),
    pdfOf := fun html => Except.ok [html.length] }

/-- A stored record used by concrete witnesses. -/
def recWitness : AppRecord :=
  { id := "a1", type := "rejoining", data := vdMinimal, createdAt := 0, updatedAt := 0 }

/-- The canonical key set of a validated payload per form type, in the insertion
order of `validateFormData`. -/
def canonicalKeys (type : String) : List String :=
  if type == "rejoining" then
    ["name", "wrokId", "mobileNo", "designation", "leaveType", "dateOfLeaving",
     "dateOfJoining", "totalLeave", "allowedLeave", "extraLeave", "passportNo",
     "passportHandedOver", "employeeSignature", "employeeSignatureDate",
     "managerSignature", "managerSignatureDate", "hrSignature", "hrSignatureDate"]
  else if type == "leave-expats" then
    ["employeeName", "employeeId", "formDate", "position", "site", "mobileNo",
     "leaveType", "commenceLeave", "totalDays", "lastDayLeave", "airportName",
     "paymentOption", "ticketOption", "employeeSignature", "employeeSignatureDate",
     "managerSignature", "managerSignatureDate", "hrSignature", "hrSignatureDate"]
  else if type == "leave-omani" then
    ["employeeName", "employeeId", "formDate", "position", "site", "mobileNo",
     "leaveType", "commenceLeave", "totalDays", "lastDayLeave",
     "employeeSignature", "employeeSignatureDate",
     "managerSignature", "managerSignatureDate", "hrSignature", "hrSignatureDate"]
  else []

/-- The optional rejoining keys with their empty defaults. -/
def rejoiningDefaults : List (String × JsValue) :=
  [("mobileNo", JsValue.str ""), ("designation", JsValue.str ""),
   ("leaveType", JsValue.str ""), ("dateOfLeaving", JsValue.str ""),
   ("dateOfJoining", JsValue.str ""), ("totalLeave", JsValue.num (some 0)),
   ("allowedLeave", JsValue.num (some 0)), ("extraLeave", JsValue.num (some 0)),
   ("passportNo", JsValue.str ""), ("passportHandedOver", JsValue.str ""),
   ("employeeSignature", JsValue.str ""), ("employeeSignatureDate", JsValue.str ""),
   ("managerSignature", JsValue.str ""), ("managerSignatureDate", JsValue.str ""),
   ("hrSignature", JsValue.str ""), ("hrSignatureDate", JsValue.str "")]

/-- The optional leave-expats keys with their empty defaults. -/
def leaveExpatsDefaults : List (String × JsValue) :=
  [("formDate", JsValue.str ""), ("position", JsValue.str ""),
   ("site", JsValue.str ""), ("mobileNo", JsValue.str ""),
   ("leaveType", JsValue.str ""), ("commenceLeave", JsValue.str ""),
   ("totalDays", JsValue.num (some 0)), ("lastDayLeave", JsValue.str ""),
   ("airportName", JsValue.str ""), ("paymentOption", JsValue.str ""),
   ("ticketOption", JsValue.str ""),
   ("employeeSignature", JsValue.str ""), ("employeeSignatureDate", JsValue.str ""),
   ("managerSignature", JsValue.str ""), ("managerSignatureDate", JsValue.str ""),
   ("hrSignature", JsValue.str ""), ("hrSignatureDate", JsValue.str "")]

/-- The optional leave-omani keys with their empty defaults. -/
def leaveOmaniDefaults : List (String × JsValue) :=
  [("formDate", JsValue.str ""), ("position", JsValue.str ""),
   ("site", JsValue.str ""), ("mobileNo", JsValue.str ""),
   ("leaveType", JsValue.str ""), ("commenceLeave", JsValue.str ""),
   ("totalDays", JsValue.num (some 0)), ("lastDayLeave", JsValue.str ""),
   ("employeeSignature", JsValue.str ""), ("employeeSignatureDate", JsValue.str ""),
   ("managerSignature", JsValue.str ""), ("managerSignatureDate", JsValue.str ""),
   ("hrSignature", JsValue.str ""), ("hrSignatureDate", JsValue.str "")]

/-- The optional keys of each form type with the empty default each receives when
absent from the submission. -/
def optionalDefaults (type : String) : List (String × JsValue) :=
  if type == "rejoining" then rejoiningDefaults
  else if type == "leave-expats" then leaveExpatsDefaults
  else if type == "leave-omani" then leaveOmaniDefaults
  else []

/-- A fully filled rejoining submission whose display name carries slash, star and
quote characters. -/
def fdFull : FormData :=
  [("name", JsValue.str "Al/pha *Bet*a\x22"), ("wrokId", JsValue.str "7"),
   ("mobileNo", JsValue.str "99119911"), ("designation", JsValue.str "Engineer"),
   ("leaveType", JsValue.str "Annual"), ("dateOfLeaving", JsValue.str "2024-01-01"),
   ("dateOfJoining", JsValue.str "2024-03-01"), ("totalLeave", JsValue.str "30"),
   ("passportNo", JsValue.str "P123"), ("passportHandedOver", JsValue.str "Yes")]

/-- The stored record for that submission (its payload as lenient validation
stores it). -/
def recMessy : AppRecord :=
  { id := "ckx42", type := "rejoining",
    data := (validateFormData "rejoining" fdFull false).2,
    createdAt := 0, updatedAt := 0 }

example :
    withRetry (fun _ => (Except.error ⟨"Timed out fetching a new connection", some "P2024"⟩ :
      Except JsError Nat)) 3 =
    ([RetryStep.retryPool 1 2000, RetryStep.retryPool 2 4000, RetryStep.throwNow 3],
     Except.error (some ⟨"Timed out fetching a new connection", some "P2024"⟩)) := rfl

example :
    withRetry (fun _ => (Except.error ⟨"Can\x27t reach database server", none⟩ :
      Except JsError Nat)) 2 =
    ([RetryStep.retryHard 1, RetryStep.throwNow 2],
     Except.error (some ⟨"Can\x27t reach database server", none⟩)) := rfl

example :
    withRetry (fun _ => (Except.error ⟨"Unique constraint failed", some "P2002"⟩ :
      Except JsError Nat)) 5 =
    ([RetryStep.throwNow 1], Except.error (some ⟨"Unique constraint failed", some "P2002"⟩)) := rfl

example : (connectWithRetry (fun _ => false) 8).2 = false := by decide

example :
    (connectWithRetry (fun _ => false) 4).1 =
    [ConnectStep.failWait 1 3000, ConnectStep.failWait 2 6000,
     ConnectStep.failWait 3 12000, ConnectStep.failLast 4] := by
  decide

example : connectWithRetry (fun a => a == 3) 8 =
    ([ConnectStep.failWait 1 3000, ConnectStep.failWait 2 6000, ConnectStep.success 3], true) := by
  decide

/-- A hard-network error is in particular retryable: both of its defining
conditions also appear among the `isRetryable` disjuncts. -/
theorem hard_isRetryable (e : JsError) (h : isHardNetwork e = true) :
    isRetryable e = true := by
  simp only [isHardNetwork, Bool.or_eq_true] at h
  rcases h with h | h <;> simp [isRetryable, h]

/-- Any iteration budget of at least one produces at least one step. -/
theorem withRetryGo_length_pos {α : Type} (op : Nat → Except JsError α) (n : Nat) :
    ∀ fuel attempt last, 1 ≤ fuel →
      1 ≤ (withRetryGo op n fuel attempt last).1.length := by
  intro fuel attempt last hf
  match fuel, hf with
  | f + 1, _ =>
    rw [withRetryGo]
    cases op attempt with
    | ok v => simp
    | error e =>
      by_cases hb : isRetryable e && decide (attempt < n)
      · simp [hb]
      · simp [hb]

/-- Pool-class failures: no client replacement occurs anywhere in the run, and every
recorded retry delay is `2000 * attempt`. -/
theorem withRetryGo_pool {α : Type} (op : Nat → Except JsError α) (n : Nat)
    (hop : ∀ i e, op i = Except.error e → isRetryable e = true ∧ isHardNetwork e = false) :
    ∀ fuel attempt last,
      replacements (withRetryGo op n fuel attempt last).1 = 0 ∧
      ∀ i d, RetryStep.retryPool i d ∈ (withRetryGo op n fuel attempt last).1 →
        d = 2000 * i := by
  intro fuel
  induction fuel with
  | zero => intro attempt last; simp [withRetryGo, replacements]
  | succ f ih =>
    intro attempt last
    rw [withRetryGo]
    cases hop1 : op attempt with
    | ok v => simp [replacements]
    | error e =>
      obtain ⟨hr, hh⟩ := hop attempt e hop1
      by_cases hlt : attempt < n
      · obtain ⟨ih1, ih2⟩ := ih (attempt + 1) (some e)
        simp only [hr, hh, hlt, decide_True, Bool.and_self, if_true, Bool.false_eq_true,
          if_false]
        constructor
        · simpa [replacements] using ih1
        · intro i d hmem
          rcases List.mem_cons.mp hmem with h | h
          · cases h; rfl
          · exact ih2 i d h
      · simp only [hlt, decide_False, Bool.and_false, if_false]
        simp [replacements]

/-- Pool-class failures: as long as attempts keep failing and the cap is not
reached, every failing attempt really is followed by a retry with its recorded
linear delay. -/
theorem withRetryGo_pool_reach {α : Type} (op : Nat → Except JsError α) (n : Nat)
    (hop : ∀ i e, op i = Except.error e → isRetryable e = true ∧ isHardNetwork e = false) :
    ∀ fuel attempt last i, 1 ≤ attempt → attempt ≤ i → i < n → i < attempt + fuel →
      (∀ j, attempt ≤ j → j ≤ i → ∃ e, op j = Except.error e) →
      RetryStep.retryPool i (2000 * i) ∈ (withRetryGo op n fuel attempt last).1 := by
  intro fuel
  induction fuel with
  | zero => intro attempt last i h1 h2 _ h4 _; omega
  | succ f ih =>
    intro attempt last i h1 h2 h3 h4 hfail
    obtain ⟨e, he⟩ := hfail attempt (le_refl attempt) h2
    obtain ⟨hr, hh⟩ := hop attempt e he
    have hlt : attempt < n := lt_of_le_of_lt h2 h3
    rw [withRetryGo, he]
    simp only [hr, hh, hlt, decide_True, Bool.and_self, if_true, Bool.false_eq_true, if_false]
    rcases eq_or_lt_of_le h2 with rfl | hlt2
    · exact List.mem_cons_self _ _
    · refine List.mem_cons_of_mem _ (ih (attempt + 1) (some e) i (by omega) hlt2 h3 (by omega) ?_)
      intro j hj1 hj2
      exact hfail j (by omega) hj2

/-- Hard-network failures: the trace contains no pool-style retry, and the number of
client replacements equals the number of retries (one replacement before each
retry). Requires the loop invariant `attempt + fuel = n + 1`. -/
theorem withRetryGo_hard {α : Type} (op : Nat → Except JsError α) (n : Nat)
    (hop : ∀ i e, op i = Except.error e → isHardNetwork e = true) :
    ∀ fuel attempt last, attempt + fuel = n + 1 →
      (∀ i d, RetryStep.retryPool i d ∉ (withRetryGo op n fuel attempt last).1) ∧
      replacements (withRetryGo op n fuel attempt last).1 =
        (withRetryGo op n fuel attempt last).1.length - 1 := by
  intro fuel
  induction fuel with
  | zero => intro attempt last _; simp [withRetryGo, replacements]
  | succ f ih =>
    intro attempt last hinv
    rw [withRetryGo]
    cases hop1 : op attempt with
    | ok v => simp [replacements]
    | error e =>
      have hh := hop attempt e hop1
      have hr := hard_isRetryable e hh
      by_cases hlt : attempt < n
      · have hf : 1 ≤ f := by omega
        obtain ⟨ih1, ih2⟩ := ih (attempt + 1) (some e) (by omega)
        have hlen := withRetryGo_length_pos op n f (attempt + 1) (some e) hf
        simp only [hr, hh, hlt, decide_True, Bool.and_self, if_true]
        constructor
        · intro i d hmem
          rcases List.mem_cons.mp hmem with h | h
          · exact RetryStep.noConfusion h
          · exact ih1 i d h
        · simp only [replacements, List.length_cons]
          omega
      · simp only [hlt, decide_False, Bool.and_false, if_false]
        simp [replacements]

/-- Retry exhaustion: if every attempt in range fails with a retryable error, the
loop performs exactly `fuel` further invocations and rethrows the error of the
final attempt. -/
theorem withRetryGo_exhaust {α : Type} (op : Nat → Except JsError α) (n : Nat)
    (errs : Nat → JsError)
    (hop : ∀ j, 1 ≤ j → j ≤ n → op j = Except.error (errs j) ∧ isRetryable (errs j) = true) :
    ∀ fuel attempt last, 1 ≤ attempt → attempt + fuel = n + 1 → 1 ≤ fuel →
      (withRetryGo op n fuel attempt last).1.length = fuel ∧
      (withRetryGo op n fuel attempt last).2 = Except.error (some (errs n)) := by
  intro fuel
  induction fuel with
  | zero => intro attempt last _ _ h; omega
  | succ f ih =>
    intro attempt last h1 hinv _
    have hle : attempt ≤ n := by omega
    obtain ⟨he, hr⟩ := hop attempt h1 hle
    rw [withRetryGo, he]
    rcases Nat.eq_zero_or_pos f with rfl | hf
    · have hn : attempt = n := by omega
      have hlt : ¬ attempt < n := by omega
      simp only [hlt, decide_False, Bool.and_false, if_false]
      simp [hn]
    · have hlt : attempt < n := by omega
      obtain ⟨ih1, ih2⟩ := ih (attempt + 1) (some (errs attempt)) (by omega) (by omega) hf
      simp only [hr, hlt, decide_True, Bool.and_self, if_true]
      simpa [ih2] using ih1

/-- C1 counterexample: `errPoolHard` belongs to the pool-exhaustion/timeout class
exactly as the claim defines it (its code is `P2024`), yet a run of `withRetry` on
an operation failing with it performs one client replacement instead of the zero
replacements the claim promises for that class: in `src/prismaClient.js` the
hard-unreachability test at line 171 takes precedence over the pool class. -/
theorem withRetry_pool_class_replaced_cex :
    errPoolHard.code = some "P2024" ∧
    replacements (withRetry (fun _ => (Except.error errPoolHard : Except JsError Nat)) 2).1 = 1 := by
  exact ⟨rfl, rfl⟩

/-- C1 (amended): for every operation behaviour and cap: (pool) if every failure is
retryable but not hard-network (pool-exhaustion/timeout class and not also in the
unreachable class), the run performs no client replacement, every recorded retry
delay is the linear `2000 * attempt`, and each failing attempt below the cap is in
fact retried; (hard) if every failure is hard-network (unreachable class, which
takes precedence when the pool markers also match), the run performs no pool-style
wait and exactly one client replacement (`recreatePrismaClient`) before each retry;
(other) a first-attempt failure of any other class propagates immediately: one
invocation, no retry, no replacement. -/
theorem withRetry_error_classes {α : Type} (op : Nat → Except JsError α) (n : Nat) :
    ((∀ i e, op i = Except.error e → isRetryable e = true ∧ isHardNetwork e = false) →
       replacements (withRetry op n).1 = 0 ∧
       (∀ i d, RetryStep.retryPool i d ∈ (withRetry op n).1 → d = 2000 * i) ∧
       (∀ i, 1 ≤ i → i < n → (∀ j, 1 ≤ j → j ≤ i → ∃ e, op j = Except.error e) →
          RetryStep.retryPool i (2000 * i) ∈ (withRetry op n).1))
    ∧ ((∀ i e, op i = Except.error e → isHardNetwork e = true) →
       (∀ i d, RetryStep.retryPool i d ∉ (withRetry op n).1) ∧
       replacements (withRetry op n).1 = (withRetry op n).1.length - 1)
    ∧ (∀ e, op 1 = Except.error e → isRetryable e = false → 1 ≤ n →
       withRetry op n = ([RetryStep.throwNow 1], Except.error (some e))) := by
  refine ⟨?_, ?_, ?_⟩
  · intro hop
    obtain ⟨h1, h2⟩ := withRetryGo_pool op n hop n 1 none
    refine ⟨h1, h2, ?_⟩
    intro i hi1 hi2 hfail
    exact withRetryGo_pool_reach op n hop n 1 none i (le_refl 1) hi1 hi2 (by omega) hfail
  · intro hop
    exact withRetryGo_hard op n hop n 1 none (by omega)
  · intro e he hr hn
    show withRetryGo op n n 1 none = _
    cases n with
    | zero => omega
    | succ m =>
      rw [withRetryGo, he]
      simp [hr]

/-- Witness for the C1 theorem: a concrete non-retryable constraint violation
propagates on the first attempt with zero retries and zero replacements. -/
theorem withRetry_error_classes_witness :
    withRetry (fun _ => (Except.error errConstraint : Except JsError Nat)) 5 =
      ([RetryStep.throwNow 1], Except.error (some errConstraint)) :=
  (withRetry_error_classes (fun _ => (Except.error errConstraint : Except JsError Nat)) 5).2.2
    errConstraint rfl (by decide) (by omega)

/-- C2: if the operation fails on every invocation with a retryable error, `withRetry`
invokes it exactly `maxAttempts` times and rethrows the error of the last attempt. -/
theorem withRetry_exhaustion {α : Type} (op : Nat → Except JsError α) (errs : Nat → JsError)
    (n : Nat) (hn : 1 ≤ n)
    (hop : ∀ j, 1 ≤ j → j ≤ n → op j = Except.error (errs j) ∧ isRetryable (errs j) = true) :
    invocations (withRetry op n).1 = n ∧
    (withRetry op n).2 = Except.error (some (errs n)) := by
  have h := withRetryGo_exhaust op n errs hop n 1 none (le_refl 1) (by omega) hn
  exact ⟨h.1, h.2⟩

/-- Witness for the C2 theorem: three pool-timeout failures against a cap of 3 give
exactly 3 invocations and rethrow the final error. -/
theorem withRetry_exhaustion_witness :
    invocations (withRetry (fun _ => (Except.error errPoolTimeout : Except JsError Nat)) 3).1 = 3 ∧
    (withRetry (fun _ => (Except.error errPoolTimeout : Except JsError Nat)) 3).2 =
      Except.error (some errPoolTimeout) := by
  have hret : isRetryable errPoolTimeout = true := by decide
  exact withRetry_exhaustion (fun _ => (Except.error errPoolTimeout : Except JsError Nat))
    (fun _ => errPoolTimeout) 3 (by omega) (fun j h1 h2 => ⟨rfl, hret⟩)

/-- When every `$connect()` attempt fails, `connectWithRetry` returns `false` and
every recorded delay is the exponential backoff delay of its attempt. -/
theorem connectGo_allfail (conn : Nat → Bool) (n : Nat) (hc : ∀ i, conn i = false) :
    ∀ fuel attempt,
      (connectGo conn n fuel attempt).2 = false ∧
      ∀ i d, ConnectStep.failWait i d ∈ (connectGo conn n fuel attempt).1 →
        d = connectDelay i := by
  intro fuel
  induction fuel with
  | zero => intro attempt; simp [connectGo]
  | succ f ih =>
    intro attempt
    obtain ⟨ih1, ih2⟩ := ih (attempt + 1)
    rw [connectGo]
    simp only [hc attempt, Bool.false_eq_true, if_false]
    refine ⟨ih1, ?_⟩
    intro i d hmem
    by_cases hlt : attempt < n
    · simp only [hlt, if_true] at hmem
      rcases List.mem_cons.mp hmem with h | h
      · cases h; rfl
      · exact ih2 i d h
    · simp only [hlt, if_false] at hmem
      rcases List.mem_cons.mp hmem with h | h
      · exact ConnectStep.noConfusion h
      · exact ih2 i d h

/-- If the first success is at attempt `k` and it is within the budget, the loop
returns `true` after exactly `k` attempts. -/
theorem connectGo_first_success (conn : Nat → Bool) (n k : Nat) (hk : conn k = true)
    (hbefore : ∀ i, 1 ≤ i → i < k → conn i = false) :
    ∀ fuel attempt, 1 ≤ attempt → attempt ≤ k → k < attempt + fuel →
      (connectGo conn n fuel attempt).2 = true ∧
      (connectGo conn n fuel attempt).1.length = k - attempt + 1 := by
  intro fuel
  induction fuel with
  | zero => intro attempt h1 h2 h3; omega
  | succ f ih =>
    intro attempt h1 h2 h3
    rcases eq_or_lt_of_le h2 with rfl | hlt
    · rw [connectGo]
      simp [hk]
    · have hfa : conn attempt = false := hbefore attempt h1 hlt
      obtain ⟨ih1, ih2⟩ := ih (attempt + 1) (by omega) hlt (by omega)
      rw [connectGo]
      simp only [hfa, Bool.false_eq_true, if_false, List.length_cons]
      exact ⟨ih1, by omega⟩

/-- C3: `connectWithRetry` retries its initial connection with exponential backoff:
the delay starts at 3000 ms, doubles each attempt, and is capped at 30000 ms; when
every attempt fails it returns `false` (a failure signal, not an exception) so
startup proceeds; and at the first successful attempt `k` within the budget it
returns `true` having made exactly `k` attempts. -/
theorem connectWithRetry_spec (conn : Nat → Bool) (n k : Nat) :
    (connectDelay 1 = 3000 ∧
      ∀ i, 1 ≤ i → connectDelay (i + 1) = min (2 * connectDelay i) 30000)
    ∧ ((∀ i, conn i = false) →
        (connectWithRetry conn n).2 = false ∧
        ∀ i d, ConnectStep.failWait i d ∈ (connectWithRetry conn n).1 → d = connectDelay i)
    ∧ (1 ≤ k → k ≤ n → conn k = true → (∀ i, 1 ≤ i → i < k → conn i = false) →
        (connectWithRetry conn n).2 = true ∧
        (connectWithRetry conn n).1.length = k) := by
  refine ⟨⟨rfl, ?_⟩, ?_, ?_⟩
  · intro i hi
    cases i with
    | zero => omega
    | succ j =>
      simp only [connectDelay, Nat.succ_sub_one]
      have hpow : 3000 * 2 ^ (j + 1) = 2 * (3000 * 2 ^ j) := by ring
      rw [hpow]
      omega
  · intro hc
    exact connectGo_allfail conn n hc n 1
  · intro hk1 hkn hck hbef
    have h := connectGo_first_success conn n k hck hbef n 1 (le_refl 1) hk1 (by omega)
    refine ⟨h.1, ?_⟩
    show (connectGo conn n n 1).1.length = k
    have h2 := h.2
    omega

/-- Witness for the C3 theorem: with the first success at attempt 3 under a budget
of 8, `connectWithRetry` returns `true` after exactly 3 attempts. -/
theorem connectWithRetry_spec_witness :
    (connectWithRetry (fun a => a == 3) 8).2 = true ∧
    (connectWithRetry (fun a => a == 3) 8).1.length = 3 :=
  (connectWithRetry_spec (fun a => a == 3) 8 3).2.2 (by omega) (by omega) (by decide)
    (fun i h1 h2 => by simp only [beq_eq_false_iff_ne]; omega)

example : validateFormData "rejoining" fdMinimal false = ([], vdMinimal) := by decide

example : (validateFormData "rejoining" vdMinimal true).1.map Prod.fst =
    ["mobileNo", "designation", "leaveType", "dateOfLeaving", "dateOfJoining",
     "totalLeave", "passportNo", "passportHandedOver"] := by decide

example : validateFormData "leave-rando" fdMinimal true = ([], []) := by decide

/-- C4: creating a rejoining record supplying only name="A" and wrokId="1" passes
lenient validation with every optional numeric field defaulted to 0 and every
optional string field defaulted to ""; strict re-validation of the stored payload
fails with a field-error map naming exactly mobileNo, designation, leaveType,
dateOfLeaving, dateOfJoining, totalLeave, passportNo and passportHandedOver; and
exporting that record is aborted with a redirect, producing no PDF. -/
theorem rejoining_minimal_create_then_export :
    validateFormData "rejoining" fdMinimal false = ([], vdMinimal) ∧
    (validateFormData "rejoining" vdMinimal true).1.map Prod.fst =
      ["mobileNo", "designation", "leaveType", "dateOfLeaving", "dateOfJoining",
       "totalLeave", "passportNo", "passportHandedOver"] ∧
    exportPDF [recMinimal] "rejoining" "cidmin" = ExportOutcome.redirectExportError "rejoining" := by
  refine ⟨by decide, by decide, by decide⟩

/-- C10: a type outside {rejoining, leave-expats, leave-omani} falls through every
branch of validateFormData, which returns the untouched empty error map and empty
payload: no failure is signalled, so rejecting unknown types is entirely the
responsibility of the callers guarding with VALID_TYPES. -/
theorem validateFormData_unknown_type (type : String) (fd : FormData) (strict : Bool)
    (h1 : type ≠ "rejoining") (h2 : type ≠ "leave-expats") (h3 : type ≠ "leave-omani") :
    validateFormData type fd strict = ([], []) := by
  simp [validateFormData, h1, h2, h3]

/-- Witness for the C10 theorem at the concrete unknown type "foo". -/
theorem validateFormData_unknown_type_witness :
    validateFormData "foo" fdMinimal true = ([], []) :=
  validateFormData_unknown_type "foo" fdMinimal true (by decide) (by decide) (by decide)

/-- C6 counterexample: in lenient mode a non-numeric totalLeave is not rejected at
all: validation returns an empty error map and silently stores NaN for totalLeave,
contradicting the claim that non-numeric values are rejected as field errors in
both validation modes. -/
theorem lenient_nonnumeric_not_rejected_cex :
    (validateFormData "rejoining" fdNaN false).1 = [] ∧
    ("totalLeave", JsValue.num none) ∈ (validateFormData "rejoining" fdNaN false).2 := by
  refine ⟨by decide, by decide⟩

/-- Every error entry emitted by processSignature carries the signature field name. -/
theorem processSignature_err_key (sig : Option JsValue) (fn : String) :
    ∀ e ∈ (processSignature sig fn).2, e.1 = fn := by
  intro e he
  rcases hval : validateSignature sig with _ | err
  · simp [processSignature, hval] at he
  · simp [processSignature, hval] at he
    simp [he]

/-- Membership in a conditional list implies membership in its non-empty branch. -/
theorem mem_of_mem_iteNil {α : Type} {b : Bool} {a : α} {l : List α}
    (h : a ∈ if b = true then l else []) : a ∈ l := by
  cases b
  · simp at h
  · simpa using h

/-- C6 (amended): numeric form fields are coerced from their submitted form with
parseInt and validation never throws (validateFormData is a total function into a
field-error map); the range checks run only in strict mode, where a missing,
non-numeric (NaN) or non-positive totalLeave / totalDays and a negative
allowedLeave / extraLeave each surface as a field-error entry; in lenient mode the
coerced value is stored and no totalLeave / totalDays field error is ever
emitted. -/
theorem numeric_fields_strict_errors (fd : FormData) :
    ((numFalsy (coerceInt (fd.lookup "totalLeave")) = true ∨
      numLe0 (coerceInt (fd.lookup "totalLeave")) = true) →
      ("totalLeave", "Total Leave is required") ∈ (validateFormData "rejoining" fd true).1) ∧
    (numLt0 (coerceInt (fd.lookup "allowedLeave")) = true →
      ("allowedLeave", "Allowed Leave must be 0 or more") ∈
        (validateFormData "rejoining" fd true).1) ∧
    (numLt0 (coerceInt (fd.lookup "extraLeave")) = true →
      ("extraLeave", "Extra Leave must be 0 or more") ∈
        (validateFormData "rejoining" fd true).1) ∧
    ((numFalsy (coerceInt (fd.lookup "totalDays")) = true ∨
      numLe0 (coerceInt (fd.lookup "totalDays")) = true) →
      ("totalDays", "Total Days is required") ∈ (validateFormData "leave-expats" fd true).1) ∧
    ((numFalsy (coerceInt (fd.lookup "totalDays")) = true ∨
      numLe0 (coerceInt (fd.lookup "totalDays")) = true) →
      ("totalDays", "Total Days is required") ∈ (validateFormData "leave-omani" fd true).1) ∧
    (∀ msg, ("totalLeave", msg) ∉ (validateFormData "rejoining" fd false).1) ∧
    (∀ msg, ("totalDays", msg) ∉ (validateFormData "leave-expats" fd false).1) := by
  refine ⟨?_, ?_, ?_, ?_, ?_, ?_, ?_⟩
  · intro h
    have hb : (numFalsy (coerceInt (fd.lookup "totalLeave")) ||
               numLe0 (coerceInt (fd.lookup "totalLeave"))) = true := by
      rcases h with h | h <;> simp [h]
    simp [validateFormData, validateRejoining, hb]
  · intro h
    simp [validateFormData, validateRejoining, h]
  · intro h
    simp [validateFormData, validateRejoining, h]
  · intro h
    have hb : (numFalsy (coerceInt (fd.lookup "totalDays")) ||
               numLe0 (coerceInt (fd.lookup "totalDays"))) = true := by
      rcases h with h | h <;> simp [h]
    simp [validateFormData, validateLeaveExpats, hb]
  · intro h
    have hb : (numFalsy (coerceInt (fd.lookup "totalDays")) ||
               numLe0 (coerceInt (fd.lookup "totalDays"))) = true := by
      rcases h with h | h <;> simp [h]
    simp [validateFormData, validateLeaveOmani, hb]
  · intro msg hmem
    have heq : (validateFormData "rejoining" fd false).1 =
        (((if requiredMissing (fd.lookup "name") = true
            then [("name", "Name is required")] else []) ++
          (if requiredMissing (fd.lookup "wrokId") = true
            then [("wrokId", "Work ID is required")] else [])) ++
         ([] : List (String × String))) ++
        (((processSignature (fd.lookup "employeeSignature") "employeeSignature").2 ++
          (processSignature (fd.lookup "managerSignature") "managerSignature").2) ++
         (processSignature (fd.lookup "hrSignature") "hrSignature").2) := rfl
    rw [heq] at hmem
    rcases List.mem_append.mp hmem with h | h
    · rcases List.mem_append.mp h with h | h
      · rcases List.mem_append.mp h with h | h
        · have := mem_of_mem_iteNil h
          simp at this
        · have := mem_of_mem_iteNil h
          simp at this
      · simp at h
    · rcases List.mem_append.mp h with h | h
      · rcases List.mem_append.mp h with h | h
        · have := processSignature_err_key _ _ _ h
          simp at this
        · have := processSignature_err_key _ _ _ h
          simp at this
      · have := processSignature_err_key _ _ _ h
        simp at this
  · intro msg hmem
    have heq : (validateFormData "leave-expats" fd false).1 =
        (((if requiredMissing (fd.lookup "employeeName") = true
            then [("employeeName", "Employee name is required")] else []) ++
          (if requiredMissing (fd.lookup "employeeId") = true
            then [("employeeId", "Employee ID is required")] else [])) ++
         ([] : List (String × String))) ++
        (((processSignature (fd.lookup "employeeSignature") "employeeSignature").2 ++
          (processSignature (fd.lookup "managerSignature") "managerSignature").2) ++
         (processSignature (fd.lookup "hrSignature") "hrSignature").2) := rfl
    rw [heq] at hmem
    rcases List.mem_append.mp hmem with h | h
    · rcases List.mem_append.mp h with h | h
      · rcases List.mem_append.mp h with h | h
        · have := mem_of_mem_iteNil h
          simp at this
        · have := mem_of_mem_iteNil h
          simp at this
      · simp at h
    · rcases List.mem_append.mp h with h | h
      · rcases List.mem_append.mp h with h | h
        · have := processSignature_err_key _ _ _ h
          simp at this
        · have := processSignature_err_key _ _ _ h
          simp at this
      · have := processSignature_err_key _ _ _ h
        simp at this

/-- Witness for the C6 theorem: a negative totalLeave of "-5" is rejected in strict
mode as a field error. -/
theorem numeric_fields_strict_errors_witness :
    ("totalLeave", "Total Leave is required") ∈
      (validateFormData "rejoining"
        [("name", JsValue.str "A"), ("totalLeave", JsValue.str "-5")] true).1 :=
  (numeric_fields_strict_errors
    [("name", JsValue.str "A"), ("totalLeave", JsValue.str "-5")]).1 (Or.inr (by decide))

/-- C8 counterexample: with the fixed logo asset unreadable and every other render
stage healthy, generatePDF succeeds: imageToBase64 catches the read failure and
inlines the empty string, so an asset read failure is silently absorbed into a
successfully produced PDF instead of surfacing as a renderer-level failure. -/
theorem generatePDF_logo_read_failure_absorbed_cex :
    imageToBase64 envLogoGone.readLogo envLogoGone.logoExt = "" ∧
    generatePDF envLogoGone "rejoining" = Except.ok [13] := by
  exact ⟨rfl, rfl⟩

/-- C8 (amended): engine-launch failures (Chrome executable not found, launch
errors), template failures and capture failures all surface as a renderer-level
failure carrying the "Failed to generate PDF: ..." diagnostic; a logo asset read
failure, however, is caught inside imageToBase64 and replaced by an empty inline
logo, and when the remaining stages succeed generatePDF resolves successfully. -/
theorem generatePDF_failure_modes (env : RenderEnv) (type tf html : String)
    (buf : List Nat) (htf : templateMap type = some tf) :
    ((∃ m, env.readLogo = Except.error m) →
      imageToBase64 env.readLogo env.logoExt = "" ∧
      (env.renderTemplate tf "" = Except.ok html → env.chromePath ≠ none →
       env.launch = Except.ok () → env.pdfOf html = Except.ok buf →
       generatePDF env type = Except.ok buf)) ∧
    (∀ m, env.renderTemplate tf (imageToBase64 env.readLogo env.logoExt) = Except.error m →
      generatePDF env type = Except.error ("Failed to generate PDF: " ++ m)) ∧
    (∀ h2, env.renderTemplate tf (imageToBase64 env.readLogo env.logoExt) = Except.ok h2 →
      env.chromePath = none →
      generatePDF env type = Except.error
        ("Failed to generate PDF: Chrome executable not found. Puppeteer installation may have failed during build.")) ∧
    (∀ h2 m, env.renderTemplate tf (imageToBase64 env.readLogo env.logoExt) = Except.ok h2 →
      env.chromePath ≠ none → env.launch = Except.error m →
      generatePDF env type = Except.error ("Failed to generate PDF: " ++ m)) := by
  refine ⟨?_, ?_, ?_, ?_⟩
  · rintro ⟨m, hm⟩
    have hlogo : imageToBase64 env.readLogo env.logoExt = "" := by
      rw [hm]; rfl
    refine ⟨hlogo, ?_⟩
    intro hrender hchrome hlaunch hpdf
    obtain ⟨p, hp⟩ := Option.ne_none_iff_exists.mp hchrome
    simp only [generatePDF, htf, hlogo, hrender, ← hp, hlaunch, hpdf]
  · intro m hrender
    simp only [generatePDF, htf, hrender]
  · intro h2 hrender hchrome
    simp only [generatePDF, htf, hrender, hchrome]
  · intro h2 m hrender hchrome hlaunch
    obtain ⟨p, hp⟩ := Option.ne_none_iff_exists.mp hchrome
    simp only [generatePDF, htf, hrender, ← hp, hlaunch]

/-- Witness for the C8 theorem at the concrete logo-failing environment. -/
theorem generatePDF_failure_modes_witness :
    generatePDF envLogoGone "rejoining" = Except.ok [13] :=
  ((generatePDF_failure_modes envLogoGone "rejoining" "rejoining.ejs" "<html></html>" [13]
      rfl).1 ⟨"ENOENT: no such file or directory", rfl⟩).2 rfl (by decide) rfl rfl

/-- The store after an update is either untouched or the targeted
prisma write of the validated payload. -/
theorem update_store_cases (store : Store) (type id : String) (body : FormData)
    (action : Option String) (now : Nat) :
    (update store type id body action now).1 = store ∨
    (update store type id body action now).1 =
      prismaUpdate store id (validateFormData type body (action == some "export")).2 now := by
  unfold update
  cases hv : VALID_TYPES.contains type
  · left; rfl
  · cases hf : findUnique store id with
    | none => left; simp [hf]
    | some ex =>
      cases ht : ex.type == normalizeType type
      · left; simp [hf, ht]
      · cases he : (validateFormData type body (action == some "export")).1.isEmpty
        · left; simp [hf, ht, he]
        · cases ha : action == some "export"
          · right
            rw [ha] at he
            simp [hf, ht, ha, List.isEmpty_iff.mp he]
          · right
            rw [ha] at he
            simp [hf, ht, ha, List.isEmpty_iff.mp he]

/-- C7: updating never changes a record\x27s type: every record of the resulting
store keeps its id, type and createdAt, records other than the addressed one are
entirely unchanged (only the data payload and updatedAt of the addressed record
are written); and an update addressed with a type that does not match the stored
record\x27s type, with an unknown id, or with an invalid type, yields the
not-found outcome and leaves the store entirely unchanged: no validation result
is persisted and no write occurs. -/
theorem update_type_immutable_and_mismatch_notfound
    (store : Store) (type id : String) (body : FormData) (action : Option String) (now : Nat) :
    (∀ a ∈ store, ∃ a2, a2 ∈ (update store type id body action now).1 ∧
       a2.id = a.id ∧ a2.type = a.type ∧ a2.createdAt = a.createdAt ∧
       (a.id ≠ id → a2 = a)) ∧
    ((type ∉ VALID_TYPES ∨ findUnique store id = none ∨
      (∃ ex, findUnique store id = some ex ∧ ex.type ≠ normalizeType type)) →
      (update store type id body action now).2 = UpdateOutcome.notFound ∧
      (update store type id body action now).1 = store) := by
  constructor
  · intro a ha
    rcases update_store_cases store type id body action now with hs | hs
    · exact ⟨a, by rw [hs]; exact ha, rfl, rfl, rfl, fun _ => rfl⟩
    · rw [hs]
      unfold prismaUpdate
      refine ⟨_, List.mem_map.mpr ⟨a, ha, rfl⟩, ?_, ?_, ?_, ?_⟩
      · cases hid : a.id == id <;> simp [hid]
      · cases hid : a.id == id <;> simp [hid]
      · cases hid : a.id == id <;> simp [hid]
      · intro hne
        have hid : (a.id == id) = false := beq_eq_false_iff_ne.mpr hne
        simp [hid]
  · rintro (hbad | hf | ⟨ex, hex, hty⟩)
    · simp [update, hbad]
    · by_cases hm : type ∈ VALID_TYPES
      · simp [update, hm, hf]
      · simp [update, hm]
    · by_cases hm : type ∈ VALID_TYPES
      · simp [update, hm, hex, hty]
      · simp [update, hm]

/-- Witness for the C7 theorem: updating the stored rejoining record under the
leave-omani route is a not-found and leaves the store unchanged. -/
theorem update_type_immutable_witness :
    (update [recWitness] "leave-omani" "a1" fdMinimal none 5).2 = UpdateOutcome.notFound ∧
    (update [recWitness] "leave-omani" "a1" fdMinimal none 5).1 = [recWitness] :=
  (update_type_immutable_and_mismatch_notfound [recWitness] "leave-omani" "a1" fdMinimal
      none 5).2
    (Or.inr (Or.inr ⟨recWitness, by decide, by decide⟩))

/-- With an empty error map the rejoining payload lists exactly the canonical keys. -/
theorem validateRejoining_keys (fd : FormData) (strict : Bool)
    (he : (validateRejoining fd strict).1 = []) :
    (validateRejoining fd strict).2.map Prod.fst = canonicalKeys "rejoining" := by
  cases h1 : requiredMissing (fd.lookup "name") <;>
    cases h2 : requiredMissing (fd.lookup "wrokId")
  case false.false =>
    unfold validateRejoining
    simp [h1, h2, signatureEntries, canonicalKeys]
  all_goals
    exfalso
    revert he
    unfold validateRejoining
    simp [h1, h2]

/-- With an empty error map the leave-expats payload lists exactly the canonical
keys. -/
theorem validateLeaveExpats_keys (fd : FormData) (strict : Bool)
    (he : (validateLeaveExpats fd strict).1 = []) :
    (validateLeaveExpats fd strict).2.map Prod.fst = canonicalKeys "leave-expats" := by
  cases h1 : requiredMissing (fd.lookup "employeeName") <;>
    cases h2 : requiredMissing (fd.lookup "employeeId")
  case false.false =>
    unfold validateLeaveExpats
    simp [h1, h2, signatureEntries, canonicalKeys]
  all_goals
    exfalso
    revert he
    unfold validateLeaveExpats
    simp [h1, h2]

/-- With an empty error map the leave-omani payload lists exactly the canonical
keys. -/
theorem validateLeaveOmani_keys (fd : FormData) (strict : Bool)
    (he : (validateLeaveOmani fd strict).1 = []) :
    (validateLeaveOmani fd strict).2.map Prod.fst = canonicalKeys "leave-omani" := by
  cases h1 : requiredMissing (fd.lookup "employeeName") <;>
    cases h2 : requiredMissing (fd.lookup "employeeId")
  case false.false =>
    unfold validateLeaveOmani
    simp [h1, h2, signatureEntries, canonicalKeys]
  all_goals
    exfalso
    revert he
    unfold validateLeaveOmani
    simp [h1, h2]

/-- Absent optional rejoining keys appear in the payload with their defaults. -/
theorem validateRejoining_defaults (fd : FormData) (strict : Bool) :
    ∀ p ∈ optionalDefaults "rejoining", fd.lookup p.1 = none →
      p ∈ (validateRejoining fd strict).2 := by
  intro p hp hnone
  have hp2 : p ∈ rejoiningDefaults := by
    simpa [optionalDefaults] using hp
  rw [rejoiningDefaults] at hp2
  fin_cases hp2 <;>
    simp only [Prod.fst] at hnone <;>
    simp [validateRejoining, signatureEntries, hnone, optTrimOr, orEmpty, coerceInt,
      processSignature, validateSignature]

/-- Absent optional leave-expats keys appear in the payload with their defaults. -/
theorem validateLeaveExpats_defaults (fd : FormData) (strict : Bool) :
    ∀ p ∈ optionalDefaults "leave-expats", fd.lookup p.1 = none →
      p ∈ (validateLeaveExpats fd strict).2 := by
  intro p hp hnone
  have hp2 : p ∈ leaveExpatsDefaults := by
    simpa [optionalDefaults] using hp
  rw [leaveExpatsDefaults] at hp2
  fin_cases hp2 <;>
    simp only [Prod.fst] at hnone <;>
    simp [validateLeaveExpats, signatureEntries, hnone, optTrimOr, orEmpty, coerceInt,
      processSignature, validateSignature]

/-- Absent optional leave-omani keys appear in the payload with their defaults. -/
theorem validateLeaveOmani_defaults (fd : FormData) (strict : Bool) :
    ∀ p ∈ optionalDefaults "leave-omani", fd.lookup p.1 = none →
      p ∈ (validateLeaveOmani fd strict).2 := by
  intro p hp hnone
  have hp2 : p ∈ leaveOmaniDefaults := by
    simpa [optionalDefaults] using hp
  rw [leaveOmaniDefaults] at hp2
  fin_cases hp2 <;>
    simp only [Prod.fst] at hnone <;>
    simp [validateLeaveOmani, signatureEntries, hnone, optTrimOr, orEmpty, coerceInt,
      processSignature, validateSignature]

/-- C5: for every valid form type and every submission accepted with an empty error
map, the validated payload contains all and only the canonical keys of the type
(unknown submitted keys are dropped), and every optional key absent from the
submission is present with its type-appropriate empty default. -/
theorem validated_payload_canonical (type : String) (fd : FormData) (strict : Bool)
    (ht : type ∈ VALID_TYPES)
    (he : (validateFormData type fd strict).1 = []) :
    (validateFormData type fd strict).2.map Prod.fst = canonicalKeys type ∧
    ∀ k d, (k, d) ∈ optionalDefaults type → fd.lookup k = none →
      (k, d) ∈ (validateFormData type fd strict).2 := by
  simp only [VALID_TYPES, List.mem_cons, List.not_mem_nil, or_false] at ht
  rcases ht with rfl | rfl | rfl
  · exact ⟨validateRejoining_keys fd strict he,
      fun k d hk hn => validateRejoining_defaults fd strict (k, d) hk hn⟩
  · exact ⟨validateLeaveExpats_keys fd strict he,
      fun k d hk hn => validateLeaveExpats_defaults fd strict (k, d) hk hn⟩
  · exact ⟨validateLeaveOmani_keys fd strict he,
      fun k d hk hn => validateLeaveOmani_defaults fd strict (k, d) hk hn⟩

/-- Witness for the C5 theorem at the minimal rejoining submission. -/
theorem validated_payload_canonical_witness :
    (validateFormData "rejoining" fdMinimal false).2.map Prod.fst =
      canonicalKeys "rejoining" :=
  (validated_payload_canonical "rejoining" fdMinimal false (by decide) (by decide)).1

/-- The length of `String.mk` is the list length. -/
theorem string_mk_length (l : List Char) : (String.mk l).length = l.length := rfl

/-- Rebuilding a string from its characters is the identity. -/
theorem string_mk_toList (s : String) : String.mk s.toList = s := rfl

/-- A string of length zero is the empty string. -/
theorem string_eq_empty_of_length {s : String} (h : s.length = 0) : s = "" := by
  cases s with
  | mk l =>
    cases l with
    | nil => rfl
    | cons a t => simp [String.length] at h

/-- Truncation always yields the first 80 characters. -/
theorem truncate80_eq_take (s : String) :
    truncate80 s = String.mk (s.toList.take 80) := by
  unfold truncate80
  by_cases h : s.length > 80
  · simp [h]
  · have hlen : s.toList.length ≤ 80 := by
      have : s.toList.length = s.length := rfl
      omega
    rw [List.take_of_length_le hlen, string_mk_toList]
    simp [h]

/-- The truncated length is the minimum of the length and 80. -/
theorem truncate80_length (s : String) :
    (truncate80 s).length = min s.length 80 := by
  rw [truncate80_eq_take, string_mk_length, List.length_take]
  have : s.toList.length = s.length := rfl
  omega

/-- Truncation keeps short strings unchanged. -/
theorem truncate80_of_le (s : String) (h : s.length ≤ 80) : truncate80 s = s := by
  unfold truncate80
  have hh : ¬ s.length > 80 := by omega
  simp [hh]

/-- Truncation of a non-empty string is non-empty. -/
theorem truncate80_ne_empty (s : String) (h : s ≠ "") : truncate80 s ≠ "" := by
  intro he
  apply h
  have h0 := congrArg String.length he
  rw [truncate80_length] at h0
  have : s.length = 0 := by
    simp at h0
    omega
  exact string_eq_empty_of_length this

/-- Case analysis of `getDisplayNameForFile`: writing `raw` for the display-name
field of the payload (name for rejoining, employeeName otherwise, blank when
absent), and assuming the route id is itself a well-formed store id (sanitizer
invariant, non-empty, within the length bound, as generated ids are): the result
keeps at most 80 characters; a blank display name falls back to the id; a display
name whose sanitization is empty falls back to the id; otherwise the result is the
sanitized (filtered and trimmed) display name truncated to 80 characters. -/
theorem getDisplayNameForFile_cases (type : String) (data : FormData) (id raw : String)
    (hraw : raw = (if type == "rejoining" then jsToString (orEmpty (data.lookup "name"))
                   else jsToString (orEmpty (data.lookup "employeeName"))))
    (hid1 : sanitizeName id = id) (hid2 : id ≠ "") (hid3 : id.length ≤ 80) :
    (getDisplayNameForFile type data id).length ≤ 80 ∧
    (jsTrim raw = "" → getDisplayNameForFile type data id = id) ∧
    (jsTrim raw ≠ "" → sanitizeName raw = "" → getDisplayNameForFile type data id = id) ∧
    (jsTrim raw ≠ "" → sanitizeName raw ≠ "" →
      getDisplayNameForFile type data id = String.mk ((sanitizeName raw).toList.take 80)) := by
  have hname : getDisplayNameForFile type data id =
      (if truncate80 (sanitizeName (fallbackName raw id)) == "" then id
       else truncate80 (sanitizeName (fallbackName raw id))) := by
    unfold getDisplayNameForFile
    rw [← hraw]
  refine ⟨?_, ?_, ?_, ?_⟩
  · rw [hname]
    by_cases he : truncate80 (sanitizeName (fallbackName raw id)) = ""
    · simp [he, hid3]
    · have heb : (truncate80 (sanitizeName (fallbackName raw id)) == "") = false :=
        beq_eq_false_iff_ne.mpr he
      rw [heb]
      simp only [Bool.false_eq_true, if_false]
      rw [truncate80_length]
      omega
  · intro htr
    have hfb : fallbackName raw id = id := by
      unfold fallbackName
      simp [htr]
    rw [hname, hfb, hid1, truncate80_of_le id hid3]
    have heb : (id == "") = false := beq_eq_false_iff_ne.mpr hid2
    simp [heb]
  · intro htr hsan
    have hraw0 : raw ≠ "" := by
      intro h
      exact htr (by rw [h]; rfl)
    have hfb : fallbackName raw id = raw := by
      unfold fallbackName
      simp [hraw0, htr]
    rw [hname, hfb, hsan]
    rfl
  · intro htr hsan
    have hraw0 : raw ≠ "" := by
      intro h
      exact htr (by rw [h]; rfl)
    have hfb : fallbackName raw id = raw := by
      unfold fallbackName
      simp [hraw0, htr]
    rw [hname, hfb]
    have hne := truncate80_ne_empty (sanitizeName raw) hsan
    have heb : (truncate80 (sanitizeName raw) == "") = false := beq_eq_false_iff_ne.mpr hne
    rw [heb]
    simp only [Bool.false_eq_true, if_false]
    exact truncate80_eq_take (sanitizeName raw)

/-- C9: for every stored record that passes strict re-validation, the export
response is the attachment "<type> - <base>.pdf" where base is
getDisplayNameForFile of the stored payload; the base keeps at most 80 characters;
and (with the id a well-formed store id: sanitizer-invariant, non-empty, at most
80 characters, as generated cuids are) the base is the display name with every
character outside alphanumerics, spaces, underscores, periods and hyphens removed,
then trimmed and truncated to at most 80 characters, falling back to the record id
when the display name is absent/blank or sanitizes to the empty string. -/
theorem export_filename (store : Store) (type id : String) (app : AppRecord) (raw : String)
    (ht : type ∈ VALID_TYPES) (hfind : findUnique store id = some app)
    (htype : app.type = normalizeType type)
    (hval : (validateFormData type app.data true).1 = [])
    (hraw : raw = (if type == "rejoining" then jsToString (orEmpty (app.data.lookup "name"))
                   else jsToString (orEmpty (app.data.lookup "employeeName"))))
    (hid1 : sanitizeName id = id) (hid2 : id ≠ "") (hid3 : id.length ≤ 80) :
    exportPDF store type id = ExportOutcome.pdfAttachment
      (type ++ " - " ++ getDisplayNameForFile type app.data id ++ ".pdf") ∧
    (getDisplayNameForFile type app.data id).length ≤ 80 ∧
    (jsTrim raw = "" → getDisplayNameForFile type app.data id = id) ∧
    (jsTrim raw ≠ "" → sanitizeName raw = "" → getDisplayNameForFile type app.data id = id) ∧
    (jsTrim raw ≠ "" → sanitizeName raw ≠ "" →
      getDisplayNameForFile type app.data id = String.mk ((sanitizeName raw).toList.take 80)) := by
  obtain ⟨hb1, hb2, hb3, hb4⟩ :=
    getDisplayNameForFile_cases type app.data id raw hraw hid1 hid2 hid3
  refine ⟨?_, hb1, hb2, hb3, hb4⟩
  have hb : (app.type == normalizeType type) = true := beq_iff_eq.mpr htype
  have hpe : (validateFormData type app.data true).1.isEmpty = true := by
    rw [hval]
    rfl
  simp [exportPDF, ht, hfind, hb, hpe]

/-- Witness for the C9 theorem: exporting the messy-named record produces the
attachment with the sanitized display name. -/
theorem export_filename_witness :
    exportPDF [recMessy] "rejoining" "ckx42" = ExportOutcome.pdfAttachment
      ("rejoining" ++ " - " ++ getDisplayNameForFile "rejoining" recMessy.data "ckx42"
        ++ ".pdf") :=
  (export_filename [recMessy] "rejoining" "ckx42" recMessy "Al/pha *Bet*a\x22"
    (by decide) (by decide) (by decide) (by decide) (by decide)
    (by decide) (by decide) (by decide)).1
